import Mathlib

/-!
Verification development for the authentication subsystem of a classroom
management backend (`be/api/authUtils.py` and the auth endpoints exercised by
`be/tests/`).  Python functions are shallowly embedded as Lean functions:
dictionaries become association lists, JWT tokens become an inductive of
signed-payload versus malformed-string, wall-clock instants become integers
counting seconds, raised `HTTPException`s become `Except` errors, and the
process environment (`os.getenv`) becomes an explicit `Env` argument.
-/

namespace Sudar

/-- The process environment seen by `os.getenv`: a partial map from variable
names to string values. -/
def Env : Type := String → Option String

/-- A JSON-ish claim value as it occurs in the JWT payload dictionaries of
`authUtils.py`: either a string claim (such as `sub` and `type`) or a
timestamp claim (`exp`, stored by `python-jose` as an integer number of
seconds since the epoch). -/
inductive JValue : Type
  | str (s : String)
  | time (t : Int)
deriving DecidableEq, Repr

/-- A Python dictionary with string keys, as an insertion-ordered association
list without duplicate keys in the operations below. -/
abbrev Dict : Type := List (String × JValue)

/-- Python `d.get(k)`: the value at key `k`, or `none` when absent. -/
def dictGet : Dict → String → Option JValue
  | [], _ => none
  | (k', v') :: rest, k => if k' = k then some v' else dictGet rest k

/-- Python `d[k] = v`: replace the value at `k` in place when the key is present,
otherwise append the new binding (Python dict insertion order). -/
def dictSet : Dict → String → JValue → Dict
  | [], k, v => [(k, v)]
  | (k', v') :: rest, k, v =>
      if k' = k then (k, v) :: rest else (k', v') :: dictSet rest k v

/-- Python `d.update(kvs)`: apply `dictSet` for each binding of the argument dict in
iteration order. -/
def dictUpdate (d : Dict) (kvs : List (String × JValue)) : Dict :=
  kvs.foldl (fun acc kv => dictSet acc kv.1 kv.2) d

/- Module-level security settings of `authUtils.py` (lines 23-31).  The
fields that call `os.getenv` in the source take the environment into account;
`ACCESS_TOKEN_EXPIRE_MINUTES` and `REFRESH_TOKEN_EXPIRE_DAYS` are the bare
integer literals `600` and `7` in the source and read no environment
variable. -/

/-- Line 23: `SECRET_KEY = os.getenv("SECRET_KEY", "your-secret-key-change-in-production")`. -/
def SECRET_KEY (env : Env) : String :=
  (env "SECRET_KEY").getD "your-secret-key-change-in-production"

/-- Line 24: `ALGORITHM = "HS256"`. -/
def ALGORITHM : String := "HS256"

/-- Line 25: `ACCESS_TOKEN_EXPIRE_MINUTES = 600` (a fixed literal; no `os.getenv`). -/
def ACCESS_TOKEN_EXPIRE_MINUTES : Nat := 600

/-- Line 26: `REFRESH_TOKEN_EXPIRE_DAYS = 7` (a fixed literal; no `os.getenv`). -/
def REFRESH_TOKEN_EXPIRE_DAYS : Nat := 7

/-- The module-level configuration of `authUtils.py` assembled as a record:
each field is computed from the process environment exactly as the
corresponding module constant is on lines 23-31 of the source. -/
structure ModuleConfig where
  secretKey : String
  algorithm : String
  accessTokenExpireMinutes : Nat
  refreshTokenExpireDays : Nat
  cookieSecure : Bool
  cookieSamesite : String
deriving DecidableEq, Repr

/-- Evaluate the module constants of `authUtils.py` under environment `env`.
`secretKey`, `cookieSecure` and `cookieSamesite` consult `os.getenv`;
`accessTokenExpireMinutes` and `refreshTokenExpireDays` are the source's
fixed literals `600` and `7`. -/
def module_config (env : Env) : ModuleConfig :=
  { secretKey := SECRET_KEY env
    algorithm := ALGORITHM
    accessTokenExpireMinutes := ACCESS_TOKEN_EXPIRE_MINUTES
    refreshTokenExpireDays := REFRESH_TOKEN_EXPIRE_DAYS
    cookieSecure := ((env "COOKIE_SECURE").getD "False").toLower = "true"
    cookieSamesite := (env "COOKIE_SAMESITE").getD "lax" }

/-- A JWT string: either the result of `jose.jwt.encode(payload, key, alg)` —
a tamper-evident signed payload, abstracted as the triple of payload, signing
key and algorithm — or any other string, which fails signature

verification. -/
inductive Token : Type
  | signed (payload : Dict) (key : String) (alg : String)
  | malformed (raw : String)
deriving DecidableEq, Repr

/-- The payload carried by a well-formed token (`[]` for a malformed one). -/
def tokenPayload : Token → Dict
  | .signed p _ _ => p
  | .malformed _ => []

/-- The exception classes raised by `jose.jwt.decode`; all three subclass
`JWTError`, so `except JWTError` in `decode_token` catches each of them. -/
inductive JWTErr : Type
  | signatureError
  | expiredSignature
  | immatureSignature
  | claimsError
deriving DecidableEq, Repr

/-- Library call `jose.jwt.encode(payload, key, algorithm)`. -/
def jwtEncode (payload : Dict) (key : String) (alg : String) : Token :=
  .signed payload key alg

/-- The value of a big-endian run of ASCII decimal digits. -/
def decDigitsVal (cs : List Char) : Nat :=
  cs.foldl (fun a c => a * 10 + (c.toNat - 48)) 0

/-- A whitespace character stripped by Python `int(s)`. -/
def is_py_space (c : Char) : Bool :=
  c = ' ' || c = '\t' || c = '\n' || c = '\r'

/-- Model of Python `int(s)` on its ASCII fragment: surrounding whitespace,
an optional sign, then one or more decimal digits (digit-grouping
underscores and non-ASCII digits are not modelled); `none` models the
`ValueError` raised otherwise. -/
def pyIntParse (s : String) : Option Int :=
  let cs := s.data.dropWhile is_py_space
  let cs := (cs.reverse.dropWhile is_py_space).reverse
  match cs with
  | '+' :: ds =>
      if ds ≠ [] ∧ ds.all Char.isDigit then some (decDigitsVal ds) else none
  | '-' :: ds =>
      if ds ≠ [] ∧ ds.all Char.isDigit then some (-(decDigitsVal ds : Int)) else none
  | ds =>
      if ds ≠ [] ∧ ds.all Char.isDigit then some (decDigitsVal ds) else none

/-- Python `int(value)` applied to a claim value, as the numeric-claim
validators of `jose` do: a timestamp is already an int; a string goes through
`int()`; `none` models the `ValueError` raised on an unparseable string. -/
def claim_as_int : JValue → Option Int
  | .time t => some t
  | .str s => pyIntParse s

/-- Library check `jose.jwt._validate_iat`: an `iat` claim, when present,
must convert with `int()` (no time comparison is made). -/
def jose_validate_iat (p : Dict) : Except JWTErr Unit :=
  match dictGet p "iat" with
  | none => .ok ()
  | some v =>
      match claim_as_int v with
      | none => .error .claimsError
      | some _ => .ok ()

/-- Library check `jose.jwt._validate_nbf`: an `nbf` claim, when present,
must convert with `int()` and must not lie in the future (zero leeway). -/
def jose_validate_nbf (p : Dict) (now : Int) : Except JWTErr Unit :=
  match dictGet p "nbf" with
  | none => .ok ()
  | some v =>
      match claim_as_int v with
      | none => .error .claimsError
      | some nbf => if now < nbf then .error .immatureSignature else .ok ()

/-- Library check `jose.jwt._validate_exp`: an `exp` claim, when present,
must convert with `int()` and must not lie in the past (zero leeway). -/
def jose_validate_exp (p : Dict) (now : Int) : Except JWTErr Unit :=
  match dictGet p "exp" with
  | none => .ok ()
  | some v =>
      match claim_as_int v with
      | none => .error .claimsError
      | some e => if e < now then .error .expiredSignature else .ok ()

/-- Library check `jose.jwt._validate_aud` with no expected audience
(`decode_token` passes `audience=None`): an absent `aud` claim passes;
a present non-string `aud` fails the claim-format check; and a present
string `aud` still fails, because the final
`if audience not in audience_claims: raise JWTClaimsError("Invalid
audience")` runs with `audience=None`, which is never a member.  So every
token carrying an `aud` claim is rejected in this calling context. -/
def jose_validate_aud (p : Dict) : Except JWTErr Unit :=
  match dictGet p "aud" with
  | some _ => .error .claimsError
  | none => .ok ()

/-- Library check `jose.jwt._validate_sub` with no expected subject: a `sub`
claim, when present, must be a string. -/
def jose_validate_sub (p : Dict) : Except JWTErr Unit :=
  match dictGet p "sub" with
  | some (.time _) => .error .claimsError
  | _ => .ok ()

/-- Library check `jose.jwt._validate_jti`: a `jti` claim, when present,
must be a string. -/
def jose_validate_jti (p : Dict) : Except JWTErr Unit :=
  match dictGet p "jti" with
  | some (.time _) => .error .claimsError
  | _ => .ok ()

/-- Library check `jose.jwt._validate_at_hash` with no access token
(`decode_token` passes `access_token=None`): an absent `at_hash` claim
passes, but a present one raises `JWTClaimsError("No access_token provided
to compare against at_hash claim.")`. -/
def jose_validate_at_hash (p : Dict) : Except JWTErr Unit :=
  match dictGet p "at_hash" with
  | some _ => .error .claimsError
  | none => .ok ()

/-- Sequencing of two validation steps: the second runs only when the first
does not raise. -/
def exceptSeq (a b : Except JWTErr Unit) : Except JWTErr Unit :=
  match a with
  | .error e => .error e
  | .ok _ => b

/-- Library call `jose.jwt._validate_claims` under the default options and
with no issuer, subject, audience or access-token argument (as called from
`decode_token`): run the registered-claim validators in the library's order
— `iat`, `nbf`, `exp`, `aud`, `iss` (vacuous with no expected issuer),
`sub`, `jti`, `at_hash` — stopping at the first failure. -/
def jose_validate_claims (p : Dict) (now : Int) : Except JWTErr Unit :=
  exceptSeq (jose_validate_iat p)
    (exceptSeq (jose_validate_nbf p now)
      (exceptSeq (jose_validate_exp p now)
        (exceptSeq (jose_validate_aud p)
          (exceptSeq (jose_validate_sub p)
            (exceptSeq (jose_validate_jti p) (jose_validate_at_hash p))))))

/-- Library call `jose.jwt.decode(token, key, algorithms)` at wall-clock
second `now`: signature verification fails on a malformed string, a key
mismatch or an algorithm outside the allowed list; the registered claims are
then validated under the default options. -/
def jwtDecode (t : Token) (key : String) (algs : List String) (now : Int) :
    Except JWTErr Dict :=
  match t with
  | .malformed _ => .error .signatureError
  | .signed p k a =>
      if k ≠ key then .error .signatureError
      else if ¬ (a ∈ algs) then .error .signatureError
      else
        match jose_validate_claims p now with
        | .error e => .error e
        | .ok _ => .ok p

/-- A raised `fastapi.HTTPException`, reduced to its status code and detail
string (the `WWW-Authenticate` header set alongside is not modelled). -/
structure HTTPError where
  statusCode : Nat
  detail : String
deriving DecidableEq, Repr

/-- Source function `create_access_token(data, expires_delta)` called at wall-clock second
`now` under environment `env`: copy the caller's dict, compute the absolute
expiry (`now + expires_delta`, defaulting to `ACCESS_TOKEN_EXPIRE_MINUTES`
minutes), overwrite the `exp` and `type` claims, and sign with the module
secret and algorithm.  `expires_delta` is a `timedelta` modelled as a number
of seconds. -/
def create_access_token (env : Env) (data : Dict) (expires_delta : Option Int)
    (now : Int) : Token :=
  let to_encode := data
  let expire : Int :=
    match expires_delta with
    | some d => now + d
    | none => now + (ACCESS_TOKEN_EXPIRE_MINUTES : Int) * 60
  jwtEncode (dictUpdate to_encode [("exp", .time expire), ("type", .str "access")])
    (SECRET_KEY env) ALGORITHM

/-- Source function `create_refresh_token(data, expires_delta)`, identically shaped but with a
default expiry of `REFRESH_TOKEN_EXPIRE_DAYS` days and a `type` claim of
`"refresh"`. -/
def create_refresh_token (env : Env) (data : Dict) (expires_delta : Option Int)
    (now : Int) : Token :=
  let to_encode := data
  let expire : Int :=
    match expires_delta with
    | some d => now + d
    | none => now + (REFRESH_TOKEN_EXPIRE_DAYS : Int) * 24 * 60 * 60
  jwtEncode (dictUpdate to_encode [("exp", .time expire), ("type", .str "refresh")])
    (SECRET_KEY env) ALGORITHM

/-- The 401 error raised by `decode_token` on any `JWTError`. -/
def credentialsError : HTTPError :=
  { statusCode := 401, detail := "Could not validate credentials" }

/-- Source function `decode_token(token)` at wall-clock second `now` under environment `env`:
delegate to `jose.jwt.decode` with the module secret and algorithm, turning
any `JWTError` into a single 401 `HTTPException`. -/
def decode_token (env : Env) (token : Token) (now : Int) :
    Except HTTPError Dict :=
  match jwtDecode token (SECRET_KEY env) [ALGORITHM] now with
  | .ok payload => .ok payload
  | .error _ => .error credentialsError

/- Specification-side predicates for the decode failure cases (claim wording:
invalid signature, malformed token, expiry in the past). -/

/-- The token's signature does not verify: it was signed with a key other
than the module secret, or with an algorithm outside the allowed list. -/
def sig_invalid (env : Env) : Token → Bool
  | .malformed _ => false
  | .signed _ k a => decide (k ≠ SECRET_KEY env) || decide (a ≠ ALGORITHM)

/-- The payload carries the numeric registered claim `k` with a value that
Python `int()` cannot convert. -/
def num_claim_invalid (p : Dict) (k : String) : Bool :=
  match dictGet p k with
  | some v => (claim_as_int v).isNone
  | none => false

/-- The payload carries the string registered claim `k` with a non-string
value. -/
def str_claim_invalid (p : Dict) (k : String) : Bool :=
  match dictGet p k with
  | some (.time _) => true
  | _ => false

/-- A registered claim of the payload has an invalid format under `jose`'s
default validation: a numeric claim (`iat`, `nbf`, `exp`) that `int()` cannot
convert, or a string claim (`sub`, `jti`) holding a non-string.  (`aud` is
not listed here: in `decode_token`'s calling context every present `aud`
claim is rejected whatever its format, see `has_unverifiable_claim`.) -/
def claims_format_invalid (p : Dict) : Bool :=
  num_claim_invalid p "iat" || num_claim_invalid p "nbf"
  || num_claim_invalid p "exp"
  || str_claim_invalid p "sub" || str_claim_invalid p "jti"

/-- The payload carries a claim that `decode_token`'s call to `jose` gives
the library nothing to verify against, so `jose` rejects the token outright:
an `aud` claim with no expected audience, or an `at_hash` claim with no
access token. -/
def has_unverifiable_claim (p : Dict) : Bool :=
  (dictGet p "aud").isSome || (dictGet p "at_hash").isSome

/-- The payload's `exp` claim converts to an int that lies in the past. -/
def payload_expired (p : Dict) (now : Int) : Bool :=
  match dictGet p "exp" with
  | some v =>
      match claim_as_int v with
      | some e => decide (e < now)
      | none => false
  | none => false

/-- The payload's `nbf` claim converts to an int that lies in the future. -/
def payload_immature (p : Dict) (now : Int) : Bool :=
  match dictGet p "nbf" with
  | some v =>
      match claim_as_int v with
      | some nbf => decide (now < nbf)
      | none => false
  | none => false

/-- The token is malformed: not a well-formed JWT at all, or carrying a
registered claim of invalid format. -/
def is_malformed : Token → Bool
  | .malformed _ => true
  | .signed p _ _ => claims_format_invalid p

/-- The token's expiry is in the past at wall-clock second `now`. -/
def is_expired (t : Token) (now : Int) : Bool :=
  match t with
  | .malformed _ => false
  | .signed p _ _ => payload_expired p now

/-- The token's not-before instant is in the future at wall-clock second
`now`. -/
def is_immature (t : Token) (now : Int) : Bool :=
  match t with
  | .malformed _ => false
  | .signed p _ _ => payload_immature p now

/-- The token carries an `aud` or `at_hash` claim, which `decode_token` —
passing no expected audience and no access token — always rejects. -/
def is_unverifiable : Token → Bool
  | .malformed _ => false
  | .signed p _ _ => has_unverifiable_claim p

/- A heap of Python dictionaries, used to state the frame property of
`data.copy()` in the token constructors: the in-place `to_encode.update(...)`
touches only the freshly allocated copy, never the caller's dictionary. -/

/-- A heap: address `i` holds `heap.getD i []`. -/
structure Store where
  heap : List Dict
deriving Repr

/-- The dictionary at address `a`. -/
def heapGet (σ : Store) (a : Nat) : Dict := σ.heap.getD a []

/-- Allocate a fresh dictionary holding `d`; returns the new store and the
fresh address. -/
def heapAlloc (σ : Store) (d : Dict) : Store × Nat :=
  ({ heap := σ.heap ++ [d] }, σ.heap.length)

/-- Python `data.copy()`: allocate a fresh dictionary with the same contents. -/
def heapCopy (σ : Store) (a : Nat) : Store × Nat :=
  heapAlloc σ (heapGet σ a)

/-- In-place `d.update(kvs)` on the dictionary at address `a`. -/
def heapUpdate (σ : Store) (a : Nat) (kvs : List (String × JValue)) : Store :=
  { heap := σ.heap.set a (dictUpdate (heapGet σ a) kvs) }

/-- The body of `create_access_token` with the mutation of its local `to_encode` made
explicit: the caller's dict lives at address `data` in store `σ`; the body
copies it, updates the copy in place, and signs the copy's final contents. -/
def create_access_token_impl (env : Env) (σ : Store) (data : Nat)
    (expires_delta : Option Int) (now : Int) : Store × Token :=
  let alloc := heapCopy σ data
  let expire : Int :=
    match expires_delta with
    | some d => now + d
    | none => now + (ACCESS_TOKEN_EXPIRE_MINUTES : Int) * 60
  let σ2 := heapUpdate alloc.1 alloc.2 [("exp", .time expire), ("type", .str "access")]
  (σ2, jwtEncode (heapGet σ2 alloc.2) (SECRET_KEY env) ALGORITHM)

/-- The body of `create_refresh_token` with the mutation of its local `to_encode` made
explicit, as in `create_access_token_impl`. -/
def create_refresh_token_impl (env : Env) (σ : Store) (data : Nat)
    (expires_delta : Option Int) (now : Int) : Store × Token :=
  let alloc := heapCopy σ data
  let expire : Int :=
    match expires_delta with
    | some d => now + d
    | none => now + (REFRESH_TOKEN_EXPIRE_DAYS : Int) * 24 * 60 * 60
  let σ2 := heapUpdate alloc.1 alloc.2 [("exp", .time expire), ("type", .str "refresh")]
  (σ2, jwtEncode (heapGet σ2 alloc.2) (SECRET_KEY env) ALGORITHM)

/- Password policy (authUtils.py lines 57-76). -/

/-- The character class of the regex `[A-Za-z]`. -/
def is_ascii_letter (c : Char) : Bool :=
  (decide ('A' ≤ c) && decide (c ≤ 'Z')) || (decide ('a' ≤ c) && decide (c ≤ 'z'))

/-- The 400 error for a password shorter than 6 characters. -/
def lengthError : HTTPError :=
  { statusCode := 400, detail := "Password must be at least 6 characters long." }

/-- The 400 error for a password with no letter. -/
def letterError : HTTPError :=
  { statusCode := 400, detail := "Password must contain at least one letter." }

/-- The 400 error for a password with no digit. -/
def digitError : HTTPError :=
  { statusCode := 400, detail := "Password must contain at least one number." }

/-- Source function `validate_password(password)`: raise 400 on the first violated rule in
the order length, letter, digit; return normally otherwise.  `re.search` of a
character class is modelled as an existence check over the string's
characters, with `\d` taken on its ASCII fragment `0-9`. -/
def validate_password (password : String) : Except HTTPError Unit :=
  if password.length < 6 then .error lengthError
  else if ¬ password.data.any is_ascii_letter then .error letterError
  else if ¬ password.data.any Char.isDigit then .error digitError
  else .ok ()

/- Password hashing (authUtils.py lines 44-54).  The external `bcrypt`
library is modelled per spec 4.6: an adaptive salted hash whose
Modular-Crypt-Format output embeds the 22-character salt, so that
verification can re-derive the digest from the stored salt.  The digest is a
concrete deterministic function of salt and password (one-wayness is not
needed by any claim, only determinism and the embedded fixed-width salt). -/

/-- The deterministic digest at the heart of the bcrypt model. -/
def bcrypt_digest (salt password : String) : String :=
  toString ((salt ++ password).data.foldl (fun a c => (a * 31 + c.toNat) % 1000000007) 7)

/-- The fixed `$2b$12$` version-and-cost prefix of a bcrypt hash string. -/
def bcryptHeader : List Char := "$2b$12$".data

/-- Library call `bcrypt.hashpw(password, salt)`: prefix, then the 22-character salt, then
the digest of salt and password. -/
def bcrypt_hashpw (password salt : String) : String :=
  String.mk (bcryptHeader ++ salt.data ++ (bcrypt_digest salt password).data)

/-- Library call `bcrypt.checkpw(password, hashed)`: recover the salt stored at a fixed
offset of the hash string, recompute the digest, compare. -/
def bcrypt_checkpw (password hashed : String) : Bool :=
  let cs := hashed.data
  let salt := String.mk ((cs.drop 7).take 22)
  let digest := String.mk (cs.drop 29)
  digest == bcrypt_digest salt password

/-- Source function `check_user_password(plain_password, hashed_password)` (lines 44-46). -/
def check_user_password (plain_password hashed_password : String) : Bool :=
  bcrypt_checkpw plain_password hashed_password

/-- Source function `hash_password(password)` (lines 49-54); the random salt drawn by
`bcrypt.gensalt()` inside the source body is passed explicitly. -/
def hash_password (password : String) (salt : String) : String :=
  bcrypt_hashpw password salt

/- The Auth Gate (authUtils.py lines 176-236) and the identifier parsing it
relies on. -/

/-- A parsed `uuid.UUID`: its 128-bit integer value. -/
structure PyUUID where
  val : Nat
deriving DecidableEq, Repr

/-- An ASCII hexadecimal digit. -/
def is_hex_digit (c : Char) : Bool :=
  c.isDigit || (decide ('a' ≤ c) && decide (c ≤ 'f'))
    || (decide ('A' ≤ c) && decide (c ≤ 'F'))

/-- The value of an ASCII hexadecimal digit. -/
def hex_digit_val (c : Char) : Nat :=
  if c.isDigit then c.toNat - 48
  else if decide ('a' ≤ c) && decide (c ≤ 'f') then c.toNat - 87
  else c.toNat - 55

/-- The value of a big-endian string of hexadecimal digits. -/
def hex_val (cs : List Char) : Nat :=
  cs.foldl (fun a c => a * 16 + hex_digit_val c) 0

/-- Fuel-bounded scan behind `strip_occurrences`; the fuel dominates the
length of the list, and each step consumes at least one character. -/
def strip_occurrences_aux (pat : List Char) : Nat → List Char → List Char
  | 0, cs => cs
  | _ + 1, [] => []
  | fuel + 1, c :: rest =>
      if pat ≠ [] ∧ (c :: rest).take pat.length = pat then
        strip_occurrences_aux pat fuel ((c :: rest).drop pat.length)
      else
        c :: strip_occurrences_aux pat fuel rest

/-- Python's `str.replace(pat, "")`: delete every left-to-right
non-overlapping occurrence of `pat`. -/
def strip_occurrences (pat : List Char) (cs : List Char) : List Char :=
  strip_occurrences_aux pat cs.length cs

/-- Python's `str.strip("\x7b\x7d")`: drop leading and trailing braces. -/
def py_strip_braces (cs : List Char) : List Char :=
  ((cs.dropWhile (fun c => c = '\x7b' || c = '\x7d')).reverse.dropWhile
    (fun c => c = '\x7b' || c = '\x7d')).reverse

/-- Library call `uuid.UUID(s)` for a string argument: delete `urn:` and `uuid:`
occurrences, strip surrounding braces, drop hyphens, and require exactly 32
hexadecimal digits; `none` models the `ValueError` raised otherwise. -/
def pyUUID_of_string (s : String) : Option PyUUID :=
  let cs := s.data
  let cs := strip_occurrences "urn:".data cs
  let cs := strip_occurrences "uuid:".data cs
  let cs := py_strip_braces cs
  let cs := cs.filter (fun c => c != '-')
  if cs.length = 32 ∧ cs.all is_hex_digit then some ⟨hex_val cs⟩ else none

/-- A row of the `teachers` table.  `api/models.py` is not under `src/`; the
fields are the ones used by `authUtils.py` and the test suite: primary key
`teacher_id`, unique `email`, display name, bcrypt-hashed password, and the
optional password-reset code and expiry written by the forgot-password
flow. -/
structure Teacher where
  teacher_id : PyUUID
  email : String
  teacher_name : String
  hashed_password : String
  reset_password_code : Option String
  code_expiry_time : Option Int
deriving DecidableEq, Repr

/-- Outcome of a request handler: a returned value, a raised
`HTTPException`, or an uncaught Python exception (which the framework
surfaces as a 500 response, not as an `HTTPException`). -/
inductive PyResult (α : Type) : Type
  | ok (a : α)
  | httpError (e : HTTPError)
  | uncaught
deriving DecidableEq, Repr

/-- The 401 error for a missing access-token cookie. -/
def notAuthenticatedError : HTTPError :=
  { statusCode := 401, detail := "Not authenticated" }

/-- The 401 error for a decoded token whose `type` claim is not `access`. -/
def invalidTokenTypeError : HTTPError :=
  { statusCode := 401, detail := "Invalid token type" }

/-- The 401 error for a `sub` claim that fails to parse as a UUID. -/
def invalidTeacherIdError : HTTPError :=
  { statusCode := 401, detail := "Invalid teacher ID format" }

/-- The 401 error for a teacher id with no matching row. -/
def teacherNotFoundError : HTTPError :=
  { statusCode := 401, detail := "Teacher not found" }

/-- Source function `get_current_teacher(access_token, db)` at wall-clock second `now`:
missing cookie → 401; token fails `decode_token` → that 401; `type` claim ≠
`"access"` → 401; missing `sub` → 401; unparseable `sub` string → 401;
unknown teacher id → 401; otherwise the teacher row.  A falsy (absent or
empty) cookie is modelled as `none`.  `UUID(teacher_id)` applied to the
non-string value of a timestamp `sub` claim raises an `AttributeError` that
the source's `except ValueError` does not catch, hence `.uncaught`. -/
def get_current_teacher (env : Env) (access_token : Option Token)
    (db : List Teacher) (now : Int) : PyResult Teacher :=
  match access_token with
  | none => .httpError notAuthenticatedError
  | some tok =>
      match decode_token env tok now with
      | .error e => .httpError e
      | .ok payload =>
          if dictGet payload "type" ≠ some (.str "access") then
            .httpError invalidTokenTypeError
          else
            match dictGet payload "sub" with
            | none => .httpError credentialsError
            | some (.time _) => .uncaught
            | some (.str s) =>
                match pyUUID_of_string s with
                | none => .httpError invalidTeacherIdError
                | some u =>
                    match db.find? (fun t => t.teacher_id == u) with
                    | none => .httpError teacherNotFoundError
                    | some t => .ok t

/- The auth router endpoints.  The router module itself is not under `src/`
(only `authUtils.py` and the test suite are), so the handlers below are
modelled from spec sections 4.4, 4.5 and 4.7, with response detail strings
following the substrings pinned by `be/tests/test_auth_endpoints.py`. -/

/-- Modelled from the spec: the verification-code validity window, "a fixed
short window, e.g. 10 minutes — exact value is a configuration constant"
(spec 4.4); the constant itself lives in the absent router module. -/
def VERIFICATION_CODE_EXPIRE_MINUTES : Nat := 10

/-- Source function `generate_verification_code(length=6)` (authUtils.py lines 79-81):
`random.choices(string.digits, k=length)` joined into a string; the random
source is passed explicitly as the per-position draw `rand`. -/
def generate_verification_code (rand : Nat → Nat) (length : Nat) : String :=
  String.mk ((List.range length).map (fun i => Char.ofNat (48 + rand i % 10)))

/-- A row of the email-verification-code table (spec 3): unique email key,
6-digit code, expiry timestamp. -/
structure EmailVerificationCode where
  email : String
  code : String
  expiry_time : Int
deriving DecidableEq, Repr

/-- The persistent state the signup flow touches: teacher rows and pending
verification-code rows. -/
structure AuthDB where
  teachers : List Teacher
  codes : List EmailVerificationCode
deriving DecidableEq, Repr

/-- Upsert by email: replace the row carrying the given email in place, or
append when absent (spec 3 invariant: exactly one row per email). -/
def upsertCode : List EmailVerificationCode → EmailVerificationCode →
    List EmailVerificationCode
  | [], r => [r]
  | hd :: tl, r => if hd.email = r.email then r :: tl else hd :: upsertCode tl r

/-- The 400 error for a signup request for an already registered email. -/
def emailAlreadyRegisteredError : HTTPError :=
  { statusCode := 400, detail := "Email already registered" }

/-- Modelled from the spec: `POST /auth/send-verification-code`
(spec 4.4 `request_code`; the router is not under `src/`).  Rejects an email
already belonging to a Teacher, otherwise draws a 6-digit code, computes its
expiry and upserts the row; the email-send collaborator is best-effort and
outside the stored state. -/
def request_code (db : AuthDB) (email : String) (rand : Nat → Nat)
    (now : Int) : Except HTTPError Unit × AuthDB :=
  if (db.teachers.find? (fun t => t.email == email)).isSome then
    (.error emailAlreadyRegisteredError, db)
  else
    let code := generate_verification_code rand 6
    (.ok (),
     { db with
        codes := upsertCode db.codes
          { email := email, code := code,
            expiry_time := now + (VERIFICATION_CODE_EXPIRE_MINUTES : Int) * 60 } })

/-- The 400 error when no pending verification code exists for the email. -/
def noVerificationCodeError : HTTPError :=
  { statusCode := 400,
    detail := "No verification code found. Please request a verification code first." }

/-- The 400 error for a mismatched verification code. -/
def invalidVerificationCodeError : HTTPError :=
  { statusCode := 400, detail := "Invalid verification code" }

/-- The 400 error for an expired verification code. -/
def expiredVerificationCodeError : HTTPError :=
  { statusCode := 400, detail := "Verification code has expired" }

/-- Modelled from the spec: `POST /auth/signup` (spec 4.4 `complete_signup`;
the router is not under `src/`).  Checks in spec order: a pending code row
exists → the code matches → it is not expired (`now > expiry` fails) → the
password passes strength validation; on success hashes the password, creates
the Teacher row and deletes the consumed code row.  The new row's primary key
and the bcrypt salt are passed explicitly; token issuance and cookie
attachment are outside the state modelled here. -/
def complete_signup (db : AuthDB) (email teacher_name password code : String)
    (now : Int) (newId : PyUUID) (salt : String) :
    Except HTTPError Teacher × AuthDB :=
  match db.codes.find? (fun r => r.email == email) with
  | none => (.error noVerificationCodeError, db)
  | some r =>
      if r.code ≠ code then (.error invalidVerificationCodeError, db)
      else if r.expiry_time < now then (.error expiredVerificationCodeError, db)
      else
        match validate_password password with
        | .error e => (.error e, db)
        | .ok _ =>
            let t : Teacher :=
              { teacher_id := newId, email := email, teacher_name := teacher_name,
                hashed_password := hash_password password salt,
                reset_password_code := none, code_expiry_time := none }
            (.ok t,
             { teachers := db.teachers ++ [t],
               codes := db.codes.filter (fun r2 => r2.email != email) })

/-- The single 401 error shared by both login failure causes; the test suite
requires "Invalid email or password" as a substring of the detail both when
the email is unknown and when the password mismatches. -/
def invalidEmailOrPasswordError : HTTPError :=
  { statusCode := 401, detail := "Invalid email or password" }

/-- Modelled from the spec: `POST /auth/login` (spec 4.5; the router is not
under `src/`).  Look the teacher up by email and verify the password against
the stored bcrypt hash; both failure causes answer with the one shared 401
error.  Token issuance and cookies on success are outside the state modelled
here. -/
def login (db : List Teacher) (email password : String) :
    Except HTTPError Teacher :=
  match db.find? (fun t => t.email == email) with
  | none => .error invalidEmailOrPasswordError
  | some t =>
      if check_user_password password t.hashed_password then .ok t
      else .error invalidEmailOrPasswordError

/-- An HTTP success response reduced to status code and message. -/
structure MessageResponse where
  statusCode : Nat
  message : String
deriving DecidableEq, Repr

/-- The generic 200 response of `POST /auth/forgot-password`, identical
whether or not the email is registered; the message follows the substring
pinned by the tests ("reset code has been sent"). -/
def forgotPasswordResponse : MessageResponse :=
  { statusCode := 200,
    message := "If the email is registered, a password reset code has been sent" }

/-- Modelled from the spec: `POST /auth/forgot-password` (spec 4.7; the
router is not under `src/`).  Always answers 200 with the same generic
message; when a Teacher row carries the email (emails are unique), a fresh
6-digit code and its expiry are stored on that row — not in the
verification-code store — and otherwise no stored state changes. -/
def forgot_password (db : List Teacher) (email : String) (rand : Nat → Nat)
    (now : Int) : MessageResponse × List Teacher :=
  match db.find? (fun t => t.email == email) with
  | none => (forgotPasswordResponse, db)
  | some _ =>
      let code := generate_verification_code rand 6
      (forgotPasswordResponse,
       db.map (fun t =>
         if t.email == email then
           { t with
              reset_password_code := some code,
              code_expiry_time :=
                some (now + (VERIFICATION_CODE_EXPIRE_MINUTES : Int) * 60) }
         else t))

/-- The concrete environment of the C9 counterexample: it sets variables
named after both TTL constants, and a secret key. -/
def ttlOverrideEnv : Env :=
  fun name =>
    if name = "ACCESS_TOKEN_EXPIRE_MINUTES" then some "5"
    else if name = "REFRESH_TOKEN_EXPIRE_DAYS" then some "1"
    else if name = "SECRET_KEY" then some "k" else none

/- Helper lemmas shared by the claims below. -/

theorem dictGet_dictSet_same (d : Dict) (k : String) (v : JValue) :
    dictGet (dictSet d k v) k = some v := by
  induction d with
  | nil => simp [dictSet, dictGet]
  | cons hd tl ih =>
      by_cases h : hd.1 = k
      · simp [dictSet, dictGet, h]
      · simp [dictSet, dictGet, h, ih]

theorem dictGet_dictSet_other (d : Dict) (k k' : String) (v : JValue)
    (hne : k' ≠ k) : dictGet (dictSet d k' v) k = dictGet d k := by
  induction d with
  | nil => simp [dictSet, dictGet, hne]
  | cons hd tl ih =>
      by_cases h : hd.1 = k'
      · simp [dictSet, dictGet, h, hne]
      · simp [dictSet, dictGet, h, ih]

theorem exceptSeq_isOk (a b : Except JWTErr Unit) :
    (exceptSeq a b).isOk = (a.isOk && b.isOk) := by
  rcases a with e | u <;> rfl

theorem jose_validate_iat_isOk (p : Dict) :
    (jose_validate_iat p).isOk = !(num_claim_invalid p "iat") := by
  unfold jose_validate_iat num_claim_invalid
  rcases dictGet p "iat" with _ | v
  · rfl
  · rcases h : claim_as_int v with _ | i <;> simp [h, Except.isOk, Except.toBool]

theorem jose_validate_nbf_isOk (p : Dict) (now : Int) :
    (jose_validate_nbf p now).isOk
      = !(num_claim_invalid p "nbf" || payload_immature p now) := by
  unfold jose_validate_nbf num_claim_invalid payload_immature
  rcases dictGet p "nbf" with _ | v
  · rfl
  · rcases h : claim_as_int v with _ | n
    · simp [h, Except.isOk, Except.toBool]
    · by_cases hc : now < n <;> simp [h, hc, Except.isOk, Except.toBool]

theorem jose_validate_exp_isOk (p : Dict) (now : Int) :
    (jose_validate_exp p now).isOk
      = !(num_claim_invalid p "exp" || payload_expired p now) := by
  unfold jose_validate_exp num_claim_invalid payload_expired
  rcases dictGet p "exp" with _ | v
  · rfl
  · rcases h : claim_as_int v with _ | e
    · simp [h, Except.isOk, Except.toBool]
    · by_cases hc : e < now <;> simp [h, hc, Except.isOk, Except.toBool]

theorem jose_validate_aud_isOk (p : Dict) :
    (jose_validate_aud p).isOk = !((dictGet p "aud").isSome) := by
  unfold jose_validate_aud
  rcases dictGet p "aud" with _ | v <;> rfl

theorem jose_validate_sub_isOk (p : Dict) :
    (jose_validate_sub p).isOk = !(str_claim_invalid p "sub") := by
  unfold jose_validate_sub str_claim_invalid
  rcases dictGet p "sub" with _ | v
  · rfl
  · rcases v with s | t <;> rfl

theorem jose_validate_jti_isOk (p : Dict) :
    (jose_validate_jti p).isOk = !(str_claim_invalid p "jti") := by
  unfold jose_validate_jti str_claim_invalid
  rcases dictGet p "jti" with _ | v
  · rfl
  · rcases v with s | t <;> rfl

theorem jose_validate_at_hash_isOk (p : Dict) :
    (jose_validate_at_hash p).isOk = !((dictGet p "at_hash").isSome) := by
  unfold jose_validate_at_hash
  rcases dictGet p "at_hash" with _ | v <;> rfl

theorem jose_validate_claims_isOk (p : Dict) (now : Int) :
    (jose_validate_claims p now).isOk
      = !(claims_format_invalid p || payload_expired p now
          || payload_immature p now || has_unverifiable_claim p) := by
  rw [jose_validate_claims, exceptSeq_isOk, exceptSeq_isOk, exceptSeq_isOk,
    exceptSeq_isOk, exceptSeq_isOk, exceptSeq_isOk, jose_validate_iat_isOk,
    jose_validate_nbf_isOk, jose_validate_exp_isOk, jose_validate_aud_isOk,
    jose_validate_sub_isOk, jose_validate_jti_isOk, jose_validate_at_hash_isOk,
    claims_format_invalid, has_unverifiable_claim]
  cases hA : num_claim_invalid p "iat" <;>
    cases hB : num_claim_invalid p "nbf" <;>
    cases hC : num_claim_invalid p "exp" <;>
    cases hS : str_claim_invalid p "sub" <;>
    cases hJ : str_claim_invalid p "jti" <;>
    cases hD : (dictGet p "aud").isSome <;>
    cases hH : (dictGet p "at_hash").isSome <;>
    cases hE : payload_expired p now <;>
    cases hI : payload_immature p now <;>
    simp [hA, hB, hC, hS, hJ, hD, hH, hE, hI]

theorem decode_token_eq (env : Env) (t : Token) (now : Int) :
    decode_token env t now =
      if sig_invalid env t || is_malformed t || is_expired t now
          || is_immature t now || is_unverifiable t then
        .error credentialsError
      else .ok (tokenPayload t) := by
  cases t with
  | malformed s =>
      simp [decode_token, jwtDecode, sig_invalid, is_malformed, is_expired,
        is_immature, is_unverifiable]
  | signed p k a =>
      by_cases hk : k = SECRET_KEY env
      · by_cases ha : a = ALGORITHM
        · subst hk; subst ha
          have hval := jose_validate_claims_isOk p now
          rcases hv : jose_validate_claims p now with e | u <;> rw [hv] at hval
          · have hval2 : false = !(claims_format_invalid p
                || payload_expired p now || payload_immature p now
                || has_unverifiable_claim p) := hval
            have hcond : (claims_format_invalid p || payload_expired p now
                || payload_immature p now || has_unverifiable_claim p)
                = true := by
              cases hcc : (claims_format_invalid p || payload_expired p now
                  || payload_immature p now || has_unverifiable_claim p)
              · rw [hcc] at hval2
                exact absurd hval2 (by decide)
              · rfl
            have hcond2 : (sig_invalid env
                  (.signed p (SECRET_KEY env) ALGORITHM)
                || is_malformed (.signed p (SECRET_KEY env) ALGORITHM)
                || is_expired (.signed p (SECRET_KEY env) ALGORITHM) now
                || is_immature (.signed p (SECRET_KEY env) ALGORITHM) now
                || is_unverifiable (.signed p (SECRET_KEY env) ALGORITHM))
                = true := by
              simp only [sig_invalid, is_malformed, is_expired, is_immature,
                is_unverifiable]
              simp only [Bool.or_eq_true] at hcond ⊢
              rcases hcond with ((h | h) | h) | h
              · exact Or.inl (Or.inl (Or.inl (Or.inr h)))
              · exact Or.inl (Or.inl (Or.inr h))
              · exact Or.inl (Or.inr h)
              · exact Or.inr h
            rw [if_pos hcond2]
            simp [decode_token, jwtDecode, hv]
          · have hcond : (claims_format_invalid p || payload_expired p now
                || payload_immature p now || has_unverifiable_claim p)
                = false := by
              have hval2 : true = !(claims_format_invalid p
                  || payload_expired p now || payload_immature p now
                  || has_unverifiable_claim p) := hval
              cases hcc : (claims_format_invalid p || payload_expired p now
                  || payload_immature p now || has_unverifiable_claim p)
              · rfl
              · rw [hcc] at hval2
                exact absurd hval2 (by decide)
            have hcond2 : (sig_invalid env
                  (.signed p (SECRET_KEY env) ALGORITHM)
                || is_malformed (.signed p (SECRET_KEY env) ALGORITHM)
                || is_expired (.signed p (SECRET_KEY env) ALGORITHM) now
                || is_immature (.signed p (SECRET_KEY env) ALGORITHM) now
                || is_unverifiable (.signed p (SECRET_KEY env) ALGORITHM))
                = false := by
              simp only [sig_invalid, is_malformed, is_expired, is_immature,
                is_unverifiable]
              simp only [Bool.or_eq_false_iff] at hcond ⊢
              exact ⟨⟨⟨⟨by simp, hcond.1.1.1⟩, hcond.1.1.2⟩, hcond.1.2⟩,
                hcond.2⟩
            rw [if_neg (by simp [hcond2])]
            simp [decode_token, jwtDecode, hv, tokenPayload]
        · subst hk
          have hmem : ¬ (a ∈ [ALGORITHM]) := by simp [ha]
          have hsig : sig_invalid env (.signed p (SECRET_KEY env) a) = true := by
            simp [sig_invalid, ha]
          rw [if_pos (by simp [hsig])]
          simp [decode_token, jwtDecode, hmem, ha]
      · have hsig : sig_invalid env (.signed p k a) = true := by
          simp [sig_invalid, hk]
        rw [if_pos (by simp [hsig])]
        simp [decode_token, jwtDecode, hk]

theorem create_access_token_default_eq (env : Env) (data : Dict) (now : Int) :
    create_access_token env data none now =
      .signed
        (dictUpdate data
          [("exp", .time (now + (ACCESS_TOKEN_EXPIRE_MINUTES : Int) * 60)),
           ("type", .str "access")])
        (SECRET_KEY env) ALGORITHM := rfl

theorem create_refresh_token_default_eq (env : Env) (data : Dict) (now : Int) :
    create_refresh_token env data none now =
      .signed
        (dictUpdate data
          [("exp", .time (now + (REFRESH_TOKEN_EXPIRE_DAYS : Int) * 24 * 60 * 60)),
           ("type", .str "refresh")])
        (SECRET_KEY env) ALGORITHM := rfl

theorem decode_token_signed_ok (env : Env) (p : Dict) (now : Int)
    (hfmt : claims_format_invalid p = false)
    (hexp : payload_expired p now = false)
    (hnbf : payload_immature p now = false)
    (haud : has_unverifiable_claim p = false) :
    decode_token env (.signed p (SECRET_KEY env) ALGORITHM) now = .ok p := by
  rw [decode_token_eq]
  rw [if_neg (by simp [sig_invalid, is_malformed, is_expired, is_immature,
    is_unverifiable, hfmt, hexp, hnbf, haud])]
  rfl

theorem dictGet_update_exp (d : Dict) (e : Int) (ty : String) :
    dictGet (dictUpdate d [("exp", .time e), ("type", .str ty)]) "exp" =
      some (.time e) := by
  simp only [dictUpdate, List.foldl]
  rw [dictGet_dictSet_other _ _ _ _ (by decide), dictGet_dictSet_same]

theorem dictGet_update_type (d : Dict) (e : Int) (ty : String) :
    dictGet (dictUpdate d [("exp", .time e), ("type", .str ty)]) "type" =
      some (.str ty) := by
  simp only [dictUpdate, List.foldl]
  rw [dictGet_dictSet_same]

theorem dictGet_update_other (d : Dict) (e : Int) (ty : String) (k : String)
    (h1 : k ≠ "exp") (h2 : k ≠ "type") :
    dictGet (dictUpdate d [("exp", .time e), ("type", .str ty)]) k =
      dictGet d k := by
  simp only [dictUpdate, List.foldl]
  rw [dictGet_dictSet_other _ _ _ _ (Ne.symm h2),
    dictGet_dictSet_other _ _ _ _ (Ne.symm h1)]

/-- C1: for every subject string `s`, decoding a token created by
`create_access_token {"sub": s}` yields claims whose `sub` equals `s` and
whose `type` equals `"access"`; likewise a token from
`create_refresh_token {"sub": s}` decodes with `type` equal to
`"refresh"`. -/
theorem claim_C1_token_roundtrip (env : Env) (s : String) (now : Int) :
    (∃ p, decode_token env (create_access_token env [("sub", .str s)] none now) now
            = .ok p
        ∧ dictGet p "sub" = some (.str s)
        ∧ dictGet p "type" = some (.str "access"))
    ∧ (∃ p, decode_token env (create_refresh_token env [("sub", .str s)] none now) now
            = .ok p
        ∧ dictGet p "sub" = some (.str s)
        ∧ dictGet p "type" = some (.str "refresh")) := by
  constructor
  · rw [create_access_token_default_eq]
    rw [show dictUpdate [("sub", JValue.str s)]
        [("exp", JValue.time (now + (ACCESS_TOKEN_EXPIRE_MINUTES : Int) * 60)),
         ("type", JValue.str "access")]
      = [("sub", JValue.str s),
         ("exp", JValue.time (now + (ACCESS_TOKEN_EXPIRE_MINUTES : Int) * 60)),
         ("type", JValue.str "access")] from by
      simp [dictUpdate, dictSet]]
    refine ⟨[("sub", JValue.str s),
      ("exp", JValue.time (now + (ACCESS_TOKEN_EXPIRE_MINUTES : Int) * 60)),
      ("type", JValue.str "access")], ?_, ?_, ?_⟩
    · apply decode_token_signed_ok
      · simp [claims_format_invalid, num_claim_invalid, str_claim_invalid,
          dictGet, claim_as_int]
      · simp only [payload_expired, dictGet, claim_as_int]
        simp only [ACCESS_TOKEN_EXPIRE_MINUTES]
        simp
      · simp [payload_immature, dictGet]
      · simp [has_unverifiable_claim, dictGet]
    · simp [dictGet]
    · simp [dictGet]
  · rw [create_refresh_token_default_eq]
    rw [show dictUpdate [("sub", JValue.str s)]
        [("exp", JValue.time
            (now + (REFRESH_TOKEN_EXPIRE_DAYS : Int) * 24 * 60 * 60)),
         ("type", JValue.str "refresh")]
      = [("sub", JValue.str s),
         ("exp", JValue.time
            (now + (REFRESH_TOKEN_EXPIRE_DAYS : Int) * 24 * 60 * 60)),
         ("type", JValue.str "refresh")] from by
      simp [dictUpdate, dictSet]]
    refine ⟨[("sub", JValue.str s),
      ("exp", JValue.time (now + (REFRESH_TOKEN_EXPIRE_DAYS : Int) * 24 * 60 * 60)),
      ("type", JValue.str "refresh")], ?_, ?_, ?_⟩
    · apply decode_token_signed_ok
      · simp [claims_format_invalid, num_claim_invalid, str_claim_invalid,
          dictGet, claim_as_int]
      · simp only [payload_expired, dictGet, claim_as_int]
        simp only [REFRESH_TOKEN_EXPIRE_DAYS]
        simp
      · simp [payload_immature, dictGet]
      · simp [has_unverifiable_claim, dictGet]
    · simp [dictGet]
    · simp [dictGet]

/-- C2 counterexample: two tokens signed with the module secret falsify the
claim's three-way list.  One whose only claim is a future `nbf` (not-before)
fails `decode_token` with the 401 — `jose`'s default validation raises
`ImmatureSignatureError` — and one whose only claim is a string `aud` also
fails with the 401, because `decode_token` passes no expected audience and
`jose`'s `_validate_aud` then raises `JWTClaimsError("Invalid audience")`
for any present `aud` claim; yet each token's signature is valid, neither is
malformed, and neither's (absent) expiry is in the past. -/
theorem claim_C2_counterexample :
    decode_token (fun _ => none)
        (.signed [("nbf", JValue.time 100)] (SECRET_KEY (fun _ => none))
          ALGORITHM) 0
      = .error credentialsError
    ∧ sig_invalid (fun _ => none)
        (.signed [("nbf", JValue.time 100)] (SECRET_KEY (fun _ => none))
          ALGORITHM) = false
    ∧ is_malformed
        (.signed [("nbf", JValue.time 100)] (SECRET_KEY (fun _ => none))
          ALGORITHM) = false
    ∧ is_expired
        (.signed [("nbf", JValue.time 100)] (SECRET_KEY (fun _ => none))
          ALGORITHM) 0 = false
    ∧ decode_token (fun _ => none)
        (.signed [("aud", JValue.str "x")] (SECRET_KEY (fun _ => none))
          ALGORITHM) 0
      = .error credentialsError
    ∧ sig_invalid (fun _ => none)
        (.signed [("aud", JValue.str "x")] (SECRET_KEY (fun _ => none))
          ALGORITHM) = false
    ∧ is_malformed
        (.signed [("aud", JValue.str "x")] (SECRET_KEY (fun _ => none))
          ALGORITHM) = false
    ∧ is_expired
        (.signed [("aud", JValue.str "x")] (SECRET_KEY (fun _ => none))
          ALGORITHM) 0 = false := by
  refine ⟨rfl, ?_, rfl, rfl, rfl, ?_, rfl, rfl⟩ <;> simp [sig_invalid]

/-- C2 amended: `decode_token t` fails — always with the single 401
"Could not validate credentials" error — precisely when the token's
signature is invalid, the token is malformed (including a registered claim
of invalid format), its expiry is in the past, its not-before instant is in
the future, or it carries an `aud` or `at_hash` claim (which `decode_token`,
passing no expected audience and no access token, always rejects); otherwise
it returns the decoded claims. -/
theorem claim_C2_decode_unauthorized_iff (env : Env) (t : Token) (now : Int) :
    (decode_token env t now = .error credentialsError
        ↔ (sig_invalid env t || is_malformed t || is_expired t now
            || is_immature t now || is_unverifiable t) = true)
    ∧ (decode_token env t now = .ok (tokenPayload t)
        ↔ (sig_invalid env t || is_malformed t || is_expired t now
            || is_immature t now || is_unverifiable t) = false)
    ∧ credentialsError.statusCode = 401 := by
  have he := decode_token_eq env t now
  by_cases h : (sig_invalid env t || is_malformed t || is_expired t now
      || is_immature t now || is_unverifiable t) = true
  · simp only [h, if_true] at he
    simp [he, h, credentialsError]
  · simp only [Bool.not_eq_true] at h
    simp only [h, Bool.false_eq_true, if_false] at he
    simp [he, h, credentialsError]

/-- C9 counterexample: the TTLs are not configurable.  Under a concrete
environment that sets `ACCESS_TOKEN_EXPIRE_MINUTES=5` and
`REFRESH_TOKEN_EXPIRE_DAYS=1`, the module still uses 600 minutes and 7 days —
the source assigns the bare literals `600` and `7`, consulting no
configuration — although the same environment does reconfigure
`SECRET_KEY`, showing the module's configuration channel is in effect. -/
theorem claim_C9_counterexample :
    (module_config ttlOverrideEnv).accessTokenExpireMinutes = 600
    ∧ (module_config ttlOverrideEnv).refreshTokenExpireDays = 7
    ∧ (module_config ttlOverrideEnv).secretKey = "k"
    ∧ (module_config (fun _ => none)).secretKey
        = "your-secret-key-change-in-production" := by
  refine ⟨rfl, rfl, ?_, rfl⟩
  simp [module_config, SECRET_KEY, ttlOverrideEnv]

/-- C9 amended: the default TTLs are fixed constants, not configurable —
under every environment the access-token TTL is 600 minutes and the
refresh-token TTL is 7 days — and a token issued without an explicit
`expires_delta` carries an expiry exactly that far in the future. -/
theorem claim_C9_default_ttl (env : Env) (data : Dict) (now : Int) :
    (module_config env).accessTokenExpireMinutes = 600
    ∧ (module_config env).refreshTokenExpireDays = 7
    ∧ dictGet (tokenPayload (create_access_token env data none now)) "exp"
        = some (.time (now + 600 * 60))
    ∧ dictGet (tokenPayload (create_refresh_token env data none now)) "exp"
        = some (.time (now + 7 * 24 * 60 * 60)) := by
  refine ⟨rfl, rfl, ?_, ?_⟩
  · rw [create_access_token_default_eq]
    exact dictGet_update_exp _ _ _
  · rw [create_refresh_token_default_eq]
    exact dictGet_update_exp _ _ _

theorem create_access_token_payload_shape (env : Env) (d : Dict)
    (delta : Option Int) (now : Int) :
    ∃ e : Int, create_access_token env d delta now =
      .signed (dictUpdate d [("exp", .time e), ("type", .str "access")])
        (SECRET_KEY env) ALGORITHM := by
  cases delta <;> exact ⟨_, rfl⟩

theorem create_refresh_token_payload_shape (env : Env) (d : Dict)
    (delta : Option Int) (now : Int) :
    ∃ e : Int, create_refresh_token env d delta now =
      .signed (dictUpdate d [("exp", .time e), ("type", .str "refresh")])
        (SECRET_KEY env) ALGORITHM := by
  cases delta <;> exact ⟨_, rfl⟩

theorem heapGet_copy_update_frame (σ : Store) (a : Nat)
    (kvs : List (String × JValue)) (h : a < σ.heap.length) :
    heapGet (heapUpdate (heapCopy σ a).1 (heapCopy σ a).2 kvs) a
      = heapGet σ a := by
  simp only [heapCopy, heapAlloc, heapUpdate, heapGet]
  rw [List.getD_eq_getElem?_getD, List.getD_eq_getElem?_getD,
    List.getElem?_set_ne (by omega), List.getElem?_append_left h]

/-- C10: the token constructors copy the caller's dict — under the explicit
heap model, a call leaves the dictionary at the caller's address untouched —
and they unconditionally overwrite any caller-supplied `type` or `exp`
entries, so every issued token decodes (when it decodes at all) with the
`type` of the issuing function, even when the input dict already contained a
conflicting `type` claim. -/
theorem claim_C10_copy_and_overwrite (env : Env) (σ : Store) (a : Nat)
    (delta : Option Int) (now : Int) (d : Dict) (h : a < σ.heap.length) :
    heapGet (create_access_token_impl env σ a delta now).1 a = heapGet σ a
    ∧ heapGet (create_refresh_token_impl env σ a delta now).1 a = heapGet σ a
    ∧ dictGet (tokenPayload (create_access_token env d delta now)) "type"
        = some (.str "access")
    ∧ dictGet (tokenPayload (create_refresh_token env d delta now)) "type"
        = some (.str "refresh")
    ∧ (∃ e : Int,
        dictGet (tokenPayload (create_access_token env d delta now)) "exp"
          = some (.time e))
    ∧ (∀ now2 p,
        decode_token env (create_access_token env d delta now) now2 = .ok p →
          dictGet p "type" = some (.str "access"))
    ∧ (∀ now2 p,
        decode_token env (create_refresh_token env d delta now) now2 = .ok p →
          dictGet p "type" = some (.str "refresh")) := by
  obtain ⟨ea, hea⟩ := create_access_token_payload_shape env d delta now
  obtain ⟨er, her⟩ := create_refresh_token_payload_shape env d delta now
  refine ⟨heapGet_copy_update_frame σ a _ h, heapGet_copy_update_frame σ a _ h,
    ?_, ?_, ?_, ?_, ?_⟩
  · rw [hea]; exact dictGet_update_type _ _ _
  · rw [her]; exact dictGet_update_type _ _ _
  · exact ⟨ea, by rw [hea]; exact dictGet_update_exp _ _ _⟩
  · intro now2 p hp
    rw [decode_token_eq] at hp
    split at hp
    · cases hp
    · rw [Except.ok.injEq] at hp
      subst hp
      rw [hea]
      exact dictGet_update_type _ _ _
  · intro now2 p hp
    rw [decode_token_eq] at hp
    split at hp
    · cases hp
    · rw [Except.ok.injEq] at hp
      subst hp
      rw [her]
      exact dictGet_update_type _ _ _

/-- Witness for C10 at a concrete store holding one dictionary that already
carries a conflicting `type` claim. -/
theorem claim_C10_copy_and_overwrite_witness :
    0 < (Store.mk [[("type", JValue.str "refresh")]]).heap.length
    ∧ heapGet
        (create_access_token_impl (fun _ => none)
          (Store.mk [[("type", JValue.str "refresh")]]) 0 none 0).1 0
        = [("type", JValue.str "refresh")]
    ∧ dictGet
        (tokenPayload
          (create_access_token (fun _ => none)
            [("type", JValue.str "refresh")] none 0)) "type"
        = some (JValue.str "access") := by
  have h := claim_C10_copy_and_overwrite (fun _ => none)
    (Store.mk [[("type", JValue.str "refresh")]]) 0 none 0
    [("type", JValue.str "refresh")] (by decide)
  exact ⟨by decide, by rw [h.1]; rfl, h.2.2.1⟩

/-- C4: `validate_password p` raises 400 exactly when `p` is shorter than 6
characters, or has no alphabetic character, or has no digit; it reports only
the first violated rule in the order length → letter → digit, each with a
distinct message, and accepts `p` when no rule is violated. -/
theorem claim_C4_validate_password (p : String) :
    ((∃ e, validate_password p = .error e ∧ e.statusCode = 400)
        ↔ (p.length < 6 ∨ ¬ p.data.any is_ascii_letter ∨ ¬ p.data.any Char.isDigit))
    ∧ (p.length < 6 → validate_password p = .error lengthError)
    ∧ (¬ p.length < 6 → ¬ p.data.any is_ascii_letter →
        validate_password p = .error letterError)
    ∧ (¬ p.length < 6 → p.data.any is_ascii_letter → ¬ p.data.any Char.isDigit →
        validate_password p = .error digitError)
    ∧ (¬ p.length < 6 → p.data.any is_ascii_letter → p.data.any Char.isDigit →
        validate_password p = .ok ())
    ∧ lengthError ≠ letterError ∧ lengthError ≠ digitError
    ∧ letterError ≠ digitError := by
  by_cases h1 : p.length < 6
  · simp [validate_password, h1, lengthError, letterError, digitError]
  · by_cases h2 : p.data.any is_ascii_letter
    · by_cases h3 : p.data.any Char.isDigit
      · simp [validate_password, h1, h2, h3, lengthError, letterError, digitError]
      · simp [validate_password, h1, h2, h3, lengthError, letterError, digitError]
    · simp [validate_password, h1, h2, lengthError, letterError, digitError]

/-- Witness for C4: a password violating the length rule, one violating only
the letter rule, one violating only the digit rule, and an accepted one. -/
theorem claim_C4_validate_password_witness :
    validate_password "abc1" = .error lengthError
    ∧ validate_password "1234567" = .error letterError
    ∧ validate_password "abcdefg" = .error digitError
    ∧ validate_password "Pass123" = .ok () :=
  ⟨(claim_C4_validate_password "abc1").2.1 (by decide),
   (claim_C4_validate_password "1234567").2.2.1 (by decide) (by decide),
   (claim_C4_validate_password "abcdefg").2.2.2.1 (by decide) (by decide) (by decide),
   (claim_C4_validate_password "Pass123").2.2.2.2.1 (by decide) (by decide) (by decide)⟩

theorem bcrypt_hashpw_data (password salt : String) :
    (bcrypt_hashpw password salt).data
      = bcryptHeader ++ salt.data ++ (bcrypt_digest salt password).data := rfl

theorem bcrypt_checkpw_hashpw (password salt : String) (hs : salt.length = 22) :
    bcrypt_checkpw password (bcrypt_hashpw password salt) = true := by
  have hsd : salt.data.length = 22 := hs
  simp only [bcrypt_checkpw, bcrypt_hashpw]
  rw [List.append_assoc, List.drop_left' (show bcryptHeader.length = 7 from rfl),
    List.take_left' hsd, ← List.append_assoc,
    List.drop_left' (by simp [hsd]; rfl)]
  show (String.mk (bcrypt_digest (String.mk salt.data) password).data
      == bcrypt_digest (String.mk salt.data) password) = true
  simp

theorem bcrypt_hashpw_salt_inj (password s1 s2 : String)
    (h1 : s1.length = 22) (h2 : s2.length = 22) (hne : s1 ≠ s2) :
    bcrypt_hashpw password s1 ≠ bcrypt_hashpw password s2 := by
  intro heq
  apply hne
  have hd : (bcrypt_hashpw password s1).data = (bcrypt_hashpw password s2).data := by
    rw [heq]
  rw [bcrypt_hashpw_data, bcrypt_hashpw_data] at hd
  have hsalt : s1.data = s2.data := by
    have h7 : bcryptHeader.length = 7 := rfl
    have := congrArg (fun l => (List.drop 7 l).take 22) hd
    simpa [List.append_assoc, List.drop_left' h7, List.take_left' (show s1.data.length = 22 from h1),
      List.take_left' (show s2.data.length = 22 from h2)] using this
  have : String.mk s1.data = String.mk s2.data := by rw [hsalt]
  exact this

/-- C5: verification succeeds against a fresh hash of the same password, and
two hashes of one password under the two distinct 22-character salts drawn by
`bcrypt.gensalt()` are different strings, both of which verify. -/
theorem claim_C5_hash_roundtrip (p s1 s2 : String)
    (h1 : s1.length = 22) (h2 : s2.length = 22) (hne : s1 ≠ s2) :
    check_user_password p (hash_password p s1) = true
    ∧ check_user_password p (hash_password p s2) = true
    ∧ hash_password p s1 ≠ hash_password p s2 :=
  ⟨bcrypt_checkpw_hashpw p s1 h1, bcrypt_checkpw_hashpw p s2 h2,
   bcrypt_hashpw_salt_inj p s1 s2 h1 h2 hne⟩

/-- Witness for C5 at a concrete password and two concrete 22-character
salts. -/
theorem claim_C5_hash_roundtrip_witness :
    ("abcdefghijklmnopqrstuv" : String).length = 22
    ∧ ("abcdefghijklmnopqrstuw" : String).length = 22
    ∧ check_user_password "TestPass123"
        (hash_password "TestPass123" "abcdefghijklmnopqrstuv") = true
    ∧ (hash_password "TestPass123" "abcdefghijklmnopqrstuv"
        == hash_password "TestPass123" "abcdefghijklmnopqrstuw") = false := by
  have h := claim_C5_hash_roundtrip "TestPass123"
    "abcdefghijklmnopqrstuv" "abcdefghijklmnopqrstuw"
    (by decide) (by decide) (by decide)
  refine ⟨by decide, by decide, h.1, ?_⟩
  rw [beq_eq_false_iff_ne]
  exact h.2.2

/-- C6 counterexample: the shared failure detail is the capitalised
"Invalid email or password" — the string required by both login failure tests
— and not the claim's lower-case "invalid email or password".  At the
concrete empty teacher table, login fails with the capitalised detail, which
differs from the claimed string. -/
theorem claim_C6_counterexample :
    login [] "a@x.com" "Pass123" = .error invalidEmailOrPasswordError
    ∧ invalidEmailOrPasswordError.detail = "Invalid email or password"
    ∧ (("Invalid email or password" : String)
        == "invalid email or password") = false := by
  refine ⟨rfl, rfl, by decide⟩

/-- C6 amended (detail capitalised as in the tests): if the email is not
found or the stored hash does not verify against the supplied password, login
fails with the one 401 error whose detail is "Invalid email or password" —
identical in both cases, so the two failure causes are indistinguishable to
the caller. -/
theorem claim_C6_login_indistinguishable (db : List Teacher)
    (email password : String) :
    (db.find? (fun t => t.email == email) = none →
        login db email password = .error invalidEmailOrPasswordError)
    ∧ (∀ t, db.find? (fun t2 => t2.email == email) = some t →
        check_user_password password t.hashed_password = false →
        login db email password = .error invalidEmailOrPasswordError)
    ∧ (∀ e, login db email password = .error e →
        e = { statusCode := 401, detail := "Invalid email or password" }) := by
  refine ⟨?_, ?_, ?_⟩
  · intro hf
    simp [login, hf]
  · intro t hf hc
    simp [login, hf, hc]
  · intro e he
    rcases hf : db.find? (fun t => t.email == email) with _ | t
    · simp only [login, hf, Except.error.injEq] at he
      rw [← he]
      rfl
    · by_cases hc : check_user_password password t.hashed_password
      · simp [login, hf, hc] at he
      · simp only [login, hf, Bool.not_eq_true] at he
        rw [Bool.not_eq_true] at hc
        simp only [hc, Bool.false_eq_true, if_false, Except.error.injEq] at he
        rw [← he]
        rfl

/-- Witness for C6 at the empty teacher table and at a one-row table with a
mismatching password. -/
theorem claim_C6_login_indistinguishable_witness :
    login [] "a@x.com" "Pass123" = .error invalidEmailOrPasswordError
    ∧ login
        [{ teacher_id := ⟨0⟩, email := "t@x.com", teacher_name := "T",
           hashed_password := hash_password "Right123" "abcdefghijklmnopqrstuv",
           reset_password_code := none, code_expiry_time := none }]
        "t@x.com" "Wrong123" = .error invalidEmailOrPasswordError := by
  constructor
  · exact (claim_C6_login_indistinguishable [] "a@x.com" "Pass123").1 (by rfl)
  · exact (claim_C6_login_indistinguishable _ "t@x.com" "Wrong123").2.1 _
      (by rfl) (by decide)

theorem forgot_password_fst (db : List Teacher) (email : String)
    (rand : Nat → Nat) (now : Int) :
    (forgot_password db email rand now).1 = forgotPasswordResponse := by
  unfold forgot_password
  cases hf : db.find? (fun t => t.email == email) <;> rfl

/-- C7: `forgot_password` answers 200 with one generic message whatever the
email — the response is identical across any two emails on the same state —
and when the email belongs to a teacher row it stores a 6-digit reset code
and its expiry on that row, while for an unknown email the stored state is
unchanged. -/
theorem claim_C7_forgot_password (db : List Teacher) (email email2 : String)
    (rand : Nat → Nat) (now : Int) :
    (forgot_password db email rand now).1 = (forgot_password db email2 rand now).1
    ∧ (forgot_password db email rand now).1.statusCode = 200
    ∧ (db.find? (fun t => t.email == email) = none →
        (forgot_password db email rand now).2 = db)
    ∧ (∀ t, db.find? (fun t2 => t2.email == email) = some t →
        ∀ t2, t2 ∈ (forgot_password db email rand now).2 → t2.email = email →
          t2.reset_password_code = some (generate_verification_code rand 6)
          ∧ t2.code_expiry_time
              = some (now + (VERIFICATION_CODE_EXPIRE_MINUTES : Int) * 60))
    ∧ (∀ t, db.find? (fun t2 => t2.email == email) = some t →
        ∃ t2 ∈ (forgot_password db email rand now).2,
          t2.email = email
          ∧ t2.reset_password_code = some (generate_verification_code rand 6))
    ∧ (generate_verification_code rand 6).length = 6
    ∧ (generate_verification_code rand 6).data.all Char.isDigit = true := by
  refine ⟨?_, ?_, ?_, ?_, ?_, ?_, ?_⟩
  · rw [forgot_password_fst, forgot_password_fst]
  · rw [forgot_password_fst]
    rfl
  · intro hf
    simp [forgot_password, hf]
  · intro t hf t2 hmem hmail
    rw [forgot_password] at hmem
    rw [hf] at hmem
    simp only at hmem
    obtain ⟨t3, _ht3, hft3⟩ := List.mem_map.mp hmem
    by_cases h3 : t3.email == email
    · rw [if_pos h3] at hft3
      rw [← hft3]
      exact ⟨rfl, rfl⟩
    · rw [if_neg h3] at hft3
      rw [← hft3] at hmail
      exact absurd (by simp [hmail]) h3
  · intro t hf
    have hmem := List.mem_of_find?_eq_some hf
    have hmail := List.find?_some hf
    simp only at hmail
    refine ⟨{ t with
        reset_password_code := some (generate_verification_code rand 6),
        code_expiry_time :=
          some (now + (VERIFICATION_CODE_EXPIRE_MINUTES : Int) * 60) }, ?_, ?_, rfl⟩
    · rw [forgot_password, hf]
      simp only
      exact List.mem_map.mpr ⟨t, hmem, by rw [if_pos hmail]⟩
    · simpa using hmail
  · show ((List.range 6).map fun i => Char.ofNat (48 + rand i % 10)).length = 6
    simp
  · show ((List.range 6).map fun i => Char.ofNat (48 + rand i % 10)).all
      Char.isDigit = true
    rw [List.all_eq_true]
    intro c hc
    obtain ⟨i, _hi, hci⟩ := List.mem_map.mp hc
    have hlt : rand i % 10 < 10 := Nat.mod_lt _ (by omega)
    rw [← hci]
    revert hlt
    generalize rand i % 10 = r
    intro hlt
    interval_cases r <;> decide

/-- Witness for C7: on a concrete one-teacher table, a registered and an
unregistered email draw the same response, and the unregistered email leaves
the table unchanged. -/
theorem claim_C7_forgot_password_witness :
    (forgot_password
        [{ teacher_id := ⟨0⟩, email := "t@x.com", teacher_name := "T",
           hashed_password := "h", reset_password_code := none,
           code_expiry_time := none }] "t@x.com" (fun _ => 0) 0).1
      = (forgot_password
          [{ teacher_id := ⟨0⟩, email := "t@x.com", teacher_name := "T",
             hashed_password := "h", reset_password_code := none,
             code_expiry_time := none }] "nobody@x.com" (fun _ => 0) 0).1
    ∧ (forgot_password
        [{ teacher_id := ⟨0⟩, email := "t@x.com", teacher_name := "T",
           hashed_password := "h", reset_password_code := none,
           code_expiry_time := none }] "nobody@x.com" (fun _ => 0) 0).2
      = [{ teacher_id := ⟨0⟩, email := "t@x.com", teacher_name := "T",
           hashed_password := "h", reset_password_code := none,
           code_expiry_time := none }] :=
  ⟨(claim_C7_forgot_password
      [{ teacher_id := ⟨0⟩, email := "t@x.com", teacher_name := "T",
         hashed_password := "h", reset_password_code := none,
         code_expiry_time := none }] "t@x.com" "nobody@x.com" (fun _ => 0) 0).1,
   (claim_C7_forgot_password
      [{ teacher_id := ⟨0⟩, email := "t@x.com", teacher_name := "T",
         hashed_password := "h", reset_password_code := none,
         code_expiry_time := none }] "nobody@x.com" "t@x.com" (fun _ => 0) 0).2.2.1
     (by decide)⟩

theorem find?_upsertCode (codes : List EmailVerificationCode)
    (r : EmailVerificationCode) :
    (upsertCode codes r).find? (fun x => x.email == r.email) = some r := by
  induction codes with
  | nil => simp [upsertCode, List.find?]
  | cons hd tl ih =>
      by_cases h : hd.email = r.email
      · simp [upsertCode, h, List.find?]
      · simp only [upsertCode, h, if_false]
        rw [List.find?_cons_of_neg _ (by simp [h])]
        exact ih

theorem find?_filter_email_ne (codes : List EmailVerificationCode)
    (email : String) :
    (codes.filter (fun r2 => r2.email != email)).find?
      (fun r => r.email == email) = none := by
  rw [List.find?_eq_none]
  intro x hx
  have hne := (List.mem_filter.mp hx).2
  simp only [bne_iff_ne, ne_eq] at hne
  simp [hne]

/-- C8: a code issued by `request_code` lets `complete_signup` with that
exact code succeed exactly once before its expiry — the success creates the
Teacher row and deletes the pending code row — so a second attempt for the
same email with the same code fails with the 400
"No verification code found" error. -/
theorem claim_C8_signup_code_consumed_once (db : AuthDB)
    (email name password : String) (rand : Nat → Nat) (now now2 now3 : Int)
    (newId : PyUUID) (salt : String)
    (hfree : db.teachers.find? (fun t => t.email == email) = none)
    (hpw : validate_password password = .ok ())
    (hfresh : now2 ≤ now + (VERIFICATION_CODE_EXPIRE_MINUTES : Int) * 60) :
    (request_code db email rand now).1 = .ok ()
    ∧ (∃ t, (complete_signup (request_code db email rand now).2 email name
          password (generate_verification_code rand 6) now2 newId salt).1
            = .ok t
        ∧ t.email = email
        ∧ t ∈ (complete_signup (request_code db email rand now).2 email name
            password (generate_verification_code rand 6) now2 newId salt).2.teachers)
    ∧ (complete_signup (request_code db email rand now).2 email name password
        (generate_verification_code rand 6) now2 newId salt).2.codes.find?
          (fun r => r.email == email) = none
    ∧ (complete_signup
        (complete_signup (request_code db email rand now).2 email name password
          (generate_verification_code rand 6) now2 newId salt).2
        email name password (generate_verification_code rand 6) now3 newId
        salt).1 = .error noVerificationCodeError := by
  have hreq : request_code db email rand now =
      (.ok (),
       { db with
          codes := upsertCode db.codes
            { email := email, code := generate_verification_code rand 6,
              expiry_time :=
                now + (VERIFICATION_CODE_EXPIRE_MINUTES : Int) * 60 } }) := by
    unfold request_code
    rw [hfree]
    rfl
  rw [hreq]
  have hfind := find?_upsertCode db.codes
    { email := email, code := generate_verification_code rand 6,
      expiry_time := now + (VERIFICATION_CODE_EXPIRE_MINUTES : Int) * 60 }
  have hcomp : complete_signup
      { db with
        codes := upsertCode db.codes
          { email := email, code := generate_verification_code rand 6,
            expiry_time := now + (VERIFICATION_CODE_EXPIRE_MINUTES : Int) * 60 } }
      email name password (generate_verification_code rand 6) now2 newId salt =
      (.ok { teacher_id := newId, email := email, teacher_name := name,
             hashed_password := hash_password password salt,
             reset_password_code := none, code_expiry_time := none },
       { teachers := db.teachers ++
           [{ teacher_id := newId, email := email, teacher_name := name,
              hashed_password := hash_password password salt,
              reset_password_code := none, code_expiry_time := none }],
         codes := (upsertCode db.codes
            { email := email, code := generate_verification_code rand 6,
              expiry_time :=
                now + (VERIFICATION_CODE_EXPIRE_MINUTES : Int) * 60 }).filter
            (fun r2 => r2.email != email) }) := by
    unfold complete_signup
    rw [hfind]
    simp only
    rw [if_neg (show ¬ generate_verification_code rand 6 ≠
      generate_verification_code rand 6 from by simp)]
    rw [if_neg (show ¬ now + (VERIFICATION_CODE_EXPIRE_MINUTES : Int) * 60 < now2
      from by omega)]
    rw [hpw]
  rw [hcomp]
  refine ⟨rfl, ⟨_, rfl, rfl, ?_⟩, find?_filter_email_ne _ _, ?_⟩
  · exact List.mem_append_right _ (List.mem_singleton.mpr rfl)
  · unfold complete_signup
    rw [find?_filter_email_ne]

/-- Witness for C8 starting from the empty database with a concrete email,
password and random source. -/
theorem claim_C8_signup_code_consumed_once_witness :
    validate_password "Pass123" = .ok ()
    ∧ (request_code ⟨[], []⟩ "a@x.com" (fun _ => 0) 0).1 = .ok ()
    ∧ (complete_signup
        (complete_signup (request_code ⟨[], []⟩ "a@x.com" (fun _ => 0) 0).2
          "a@x.com" "A" "Pass123" (generate_verification_code (fun _ => 0) 6)
          0 ⟨0⟩ "s").2
        "a@x.com" "A" "Pass123" (generate_verification_code (fun _ => 0) 6)
        0 ⟨0⟩ "s").1 = .error noVerificationCodeError := by
  have h := claim_C8_signup_code_consumed_once ⟨[], []⟩ "a@x.com" "A" "Pass123"
    (fun _ => 0) 0 0 0 ⟨0⟩ "s" rfl rfl (by decide)
  exact ⟨rfl, h.1, h.2.2.2⟩

theorem decode_token_ok_sub (env : Env) (tok : Token) (now : Int) (p : Dict)
    (h : decode_token env tok now = .ok p) :
    dictGet p "sub" = none ∨ ∃ s, dictGet p "sub" = some (JValue.str s) := by
  rw [decode_token_eq] at h
  split at h
  · cases h
  · rename_i hcond
    cases h
    simp only [Bool.or_eq_true, not_or, Bool.not_eq_true] at hcond
    rcases tok with ⟨p', k, a⟩ | s
    · have hmal : claims_format_invalid p' = false := hcond.1.1.1.2
      simp only [claims_format_invalid, Bool.or_eq_false_iff] at hmal
      have hsub : str_claim_invalid p' "sub" = false := hmal.1.2
      rcases hs : dictGet p' "sub" with _ | v
      · exact Or.inl hs
      · rcases v with s | t
        · exact Or.inr ⟨s, hs⟩
        · rw [str_claim_invalid, hs] at hsub
          cases hsub
    · have hmal : is_malformed (Token.malformed s) = false := hcond.1.1.1.2
      cases hmal

/-- C3: `get_current_teacher` fails with 401 in each of these cases, checked
in this order: the cookie is absent; the token fails verification; the
decoded `type` claim is not `"access"`; the `sub` claim is missing (and a
non-string `sub` cannot survive verification, since `jose` rejects it); the
`sub` claim is not a parseable UUID; no Teacher row has that id.  When none
of these hold it returns that Teacher, so every request either resolves to a
teacher or fails with a 401.  `decode_token` itself does not check the kind
claim: overwriting the `type` claim of a signed token with any value never
changes whether it decodes. -/
theorem claim_C3_auth_gate (env : Env) (db : List Teacher) (now : Int) :
    (∀ cookie,
        (∃ t, get_current_teacher env cookie db now = .ok t)
        ∨ (∃ e, get_current_teacher env cookie db now = .httpError e
            ∧ e.statusCode = 401))
    ∧ (get_current_teacher env none db now = .httpError notAuthenticatedError)
    ∧ (∀ tok e, decode_token env tok now = .error e →
        get_current_teacher env (some tok) db now = .httpError e
          ∧ e.statusCode = 401)
    ∧ (∀ tok p, decode_token env tok now = .ok p →
        dictGet p "type" ≠ some (.str "access") →
        get_current_teacher env (some tok) db now
          = .httpError invalidTokenTypeError)
    ∧ (∀ tok p, decode_token env tok now = .ok p →
        dictGet p "type" = some (.str "access") →
        dictGet p "sub" = none →
        get_current_teacher env (some tok) db now = .httpError credentialsError)
    ∧ (∀ tok p s, decode_token env tok now = .ok p →
        dictGet p "type" = some (.str "access") →
        dictGet p "sub" = some (.str s) →
        pyUUID_of_string s = none →
        get_current_teacher env (some tok) db now
          = .httpError invalidTeacherIdError)
    ∧ (∀ tok p s u, decode_token env tok now = .ok p →
        dictGet p "type" = some (.str "access") →
        dictGet p "sub" = some (.str s) →
        pyUUID_of_string s = some u →
        db.find? (fun t => t.teacher_id == u) = none →
        get_current_teacher env (some tok) db now
          = .httpError teacherNotFoundError)
    ∧ (∀ tok p s u t, decode_token env tok now = .ok p →
        dictGet p "type" = some (.str "access") →
        dictGet p "sub" = some (.str s) →
        pyUUID_of_string s = some u →
        db.find? (fun t2 => t2.teacher_id == u) = some t →
        get_current_teacher env (some tok) db now = .ok t)
    ∧ (notAuthenticatedError.statusCode = 401
        ∧ invalidTokenTypeError.statusCode = 401
        ∧ credentialsError.statusCode = 401
        ∧ invalidTeacherIdError.statusCode = 401
        ∧ teacherNotFoundError.statusCode = 401)
    ∧ (∀ p (v : JValue) (k a : String),
        (decode_token env (.signed (dictSet p "type" v) k a) now).isOk
          = (decode_token env (.signed p k a) now).isOk) := by
  refine ⟨?_, rfl, ?_, ?_, ?_, ?_, ?_, ?_, ⟨rfl, rfl, rfl, rfl, rfl⟩, ?_⟩
  · intro cookie
    rcases cookie with _ | tok
    · exact Or.inr ⟨notAuthenticatedError, rfl, rfl⟩
    · rcases hdec : decode_token env tok now with e | p
      · have h401 : e.statusCode = 401 := by
          rw [decode_token_eq] at hdec
          split at hdec
          · cases hdec
            rfl
          · cases hdec
        refine Or.inr ⟨e, ?_, h401⟩
        simp only [get_current_teacher]
        rw [hdec]
      · by_cases hty : dictGet p "type" = some (JValue.str "access")
        · rcases decode_token_ok_sub env tok now p hdec with hsub | ⟨s, hsub⟩
          · refine Or.inr ⟨credentialsError, ?_, rfl⟩
            simp only [get_current_teacher]
            rw [hdec]
            simp only
            rw [if_neg (by simp [hty]), hsub]
          · rcases hu : pyUUID_of_string s with _ | u
            · refine Or.inr ⟨invalidTeacherIdError, ?_, rfl⟩
              simp only [get_current_teacher]
              rw [hdec]
              simp only
              rw [if_neg (by simp [hty]), hsub]
              simp only
              rw [hu]
            · rcases hf : db.find? (fun t2 => t2.teacher_id == u) with _ | t
              · refine Or.inr ⟨teacherNotFoundError, ?_, rfl⟩
                simp only [get_current_teacher]
                rw [hdec]
                simp only
                rw [if_neg (by simp [hty]), hsub]
                simp only
                rw [hu]
                simp only
                rw [hf]
              · refine Or.inl ⟨t, ?_⟩
                simp only [get_current_teacher]
                rw [hdec]
                simp only
                rw [if_neg (by simp [hty]), hsub]
                simp only
                rw [hu]
                simp only
                rw [hf]
        · refine Or.inr ⟨invalidTokenTypeError, ?_, rfl⟩
          simp only [get_current_teacher]
          rw [hdec]
          simp only
          rw [if_pos hty]
  · intro tok e he
    have h401 : e.statusCode = 401 := by
      rw [decode_token_eq] at he
      split at he
      · cases he
        rfl
      · cases he
    refine ⟨?_, h401⟩
    simp only [get_current_teacher]
    rw [he]
  · intro tok p hp hty
    simp only [get_current_teacher]
    rw [hp]
    simp only
    rw [if_pos hty]
  · intro tok p hp hty hsub
    simp only [get_current_teacher]
    rw [hp]
    simp only
    rw [if_neg (by simp [hty]), hsub]
  · intro tok p s hp hty hsub hu
    simp only [get_current_teacher]
    rw [hp]
    simp only
    rw [if_neg (by simp [hty]), hsub]
    simp only
    rw [hu]
  · intro tok p s u hp hty hsub hu hfind
    simp only [get_current_teacher]
    rw [hp]
    simp only
    rw [if_neg (by simp [hty]), hsub]
    simp only
    rw [hu]
    simp only
    rw [hfind]
  · intro tok p s u t hp hty hsub hu hfind
    simp only [get_current_teacher]
    rw [hp]
    simp only
    rw [if_neg (by simp [hty]), hsub]
    simp only
    rw [hu]
    simp only
    rw [hfind]
  · intro p v k a
    have hIat : dictGet (dictSet p "type" v) "iat" = dictGet p "iat" :=
      dictGet_dictSet_other p "iat" "type" v (by decide)
    have hNbf : dictGet (dictSet p "type" v) "nbf" = dictGet p "nbf" :=
      dictGet_dictSet_other p "nbf" "type" v (by decide)
    have hExp : dictGet (dictSet p "type" v) "exp" = dictGet p "exp" :=
      dictGet_dictSet_other p "exp" "type" v (by decide)
    have hAud : dictGet (dictSet p "type" v) "aud" = dictGet p "aud" :=
      dictGet_dictSet_other p "aud" "type" v (by decide)
    have hSub : dictGet (dictSet p "type" v) "sub" = dictGet p "sub" :=
      dictGet_dictSet_other p "sub" "type" v (by decide)
    have hJti : dictGet (dictSet p "type" v) "jti" = dictGet p "jti" :=
      dictGet_dictSet_other p "jti" "type" v (by decide)
    have hAtH : dictGet (dictSet p "type" v) "at_hash" = dictGet p "at_hash" :=
      dictGet_dictSet_other p "at_hash" "type" v (by decide)
    rw [decode_token_eq, decode_token_eq]
    have h1 : sig_invalid env (.signed (dictSet p "type" v) k a)
        = sig_invalid env (.signed p k a) := rfl
    have h2 : is_malformed (.signed (dictSet p "type" v) k a)
        = is_malformed (.signed p k a) := by
      simp only [is_malformed, claims_format_invalid, num_claim_invalid,
        str_claim_invalid, hIat, hNbf, hExp, hSub, hJti]
    have h3 : is_expired (.signed (dictSet p "type" v) k a) now
        = is_expired (.signed p k a) now := by
      simp only [is_expired, payload_expired, hExp]
    have h4 : is_immature (.signed (dictSet p "type" v) k a) now
        = is_immature (.signed p k a) now := by
      simp only [is_immature, payload_immature, hNbf]
    have h5 : is_unverifiable (.signed (dictSet p "type" v) k a)
        = is_unverifiable (.signed p k a) := by
      simp only [is_unverifiable, has_unverifiable_claim, hAud, hAtH]
    rw [h1, h2, h3, h4, h5]
    by_cases hc : (sig_invalid env (.signed p k a) || is_malformed (.signed p k a)
        || is_expired (.signed p k a) now || is_immature (.signed p k a) now
        || is_unverifiable (.signed p k a)) = true
    · rw [if_pos hc, if_pos hc]
    · rw [if_neg hc, if_neg hc]
      rfl

/-- Witness for C3: a validly signed access token for a concrete registered
teacher id resolves to that teacher. -/
theorem claim_C3_auth_gate_witness :
    get_current_teacher (fun _ => none)
      (some (.signed [("sub", JValue.str "00000000-0000-0000-0000-000000000000"),
        ("type", JValue.str "access"), ("exp", JValue.time 1)]
        (SECRET_KEY (fun _ => none)) ALGORITHM))
      [{ teacher_id := ⟨0⟩, email := "t@x.com", teacher_name := "T",
         hashed_password := "h", reset_password_code := none,
         code_expiry_time := none }] 0
      = .ok { teacher_id := ⟨0⟩, email := "t@x.com", teacher_name := "T",
              hashed_password := "h", reset_password_code := none,
              code_expiry_time := none } :=
  (claim_C3_auth_gate (fun _ => none)
    [{ teacher_id := ⟨0⟩, email := "t@x.com", teacher_name := "T",
       hashed_password := "h", reset_password_code := none,
       code_expiry_time := none }] 0).2.2.2.2.2.2.2.1
    (.signed [("sub", JValue.str "00000000-0000-0000-0000-000000000000"),
      ("type", JValue.str "access"), ("exp", JValue.time 1)]
      (SECRET_KEY (fun _ => none)) ALGORITHM)
    [("sub", JValue.str "00000000-0000-0000-0000-000000000000"),
      ("type", JValue.str "access"), ("exp", JValue.time 1)]
    "00000000-0000-0000-0000-000000000000" ⟨0⟩
    { teacher_id := ⟨0⟩, email := "t@x.com", teacher_name := "T",
      hashed_password := "h", reset_password_code := none,
      code_expiry_time := none }
    rfl rfl rfl (by rfl) rfl

end Sudar
